import Mathlib

/-!
Verification development for the tornwamp/wampnado WAMP router core.

The definitions below are a shallow embedding of the Python sources under
`src/wampnado/`: `features.py` (the `Options` dict with attribute access),
`uri/procedure.py` (`Procedure.yield_result`), `uri/topic.py`
(`Topic.publish`, `Topic.remove_subscriber`, `Topic.add_subscriber`),
`uri/manager.py` (`URIManager`), `processors/pubsub.py`
(`PublishProcessor.process`), `auth.py` (`Roles.authorize`) and
`messages.py` (`encode_bin_as_b64`, `decode_b64`, `Message.json`,
`Message.from_text`).

Python dicts are modelled as insertion-ordered association lists with unique
keys; Python exceptions (`KeyError`, `TypeError`, `AttributeError`, raised
`WAMPException`s) are modelled by an error type that operations return next
to the side effects already performed before the raise, because Python side
effects (messages already written to a transport) survive a later exception
in the same call.
-/

namespace Wampnado

/-- A dynamic (Python-style) value: the payloads WAMP messages carry. -/
inductive PVal where
  | pynone
  | pybool (b : Bool)
  | pyint (n : Int)
  | pystr (s : String)
  | pybytes (bs : List Nat)
  | pylist (xs : List PVal)
  | pydict (xs : List (String × PVal))
  deriving Repr

/-- Python truthiness (`if x:`) for the embedded values. -/
def PVal.truthy : PVal → Bool
  | .pynone => false
  | .pybool b => b
  | .pyint n => n != 0
  | .pystr s => !s.isEmpty
  | .pybytes bs => !bs.isEmpty
  | .pylist xs => !xs.isEmpty
  | .pydict xs => !xs.isEmpty

/-- The Python exceptions the embedded code can raise.  `wampError` stands
for a raised `WAMPException`/`WAMPSimpleException` and records the error
URI name it carries. -/
inductive PyErr where
  | keyError (k : String)
  | typeError (msg : String)
  | attributeError (msg : String)
  | wampError (uri : String)
  deriving Repr, DecidableEq

/-- First value stored under a key in an association list (Python `d.get(k)` /
`d[k]` lookup on a dict, whose keys are unique). -/
def alookup {κ α : Type} [DecidableEq κ] (xs : List (κ × α)) (k : κ) : Option α :=
  match xs with
  | [] => Option.none
  | (k0, v0) :: rest => if k0 = k then some v0 else alookup rest k

/-- Python `d[k] = v`: replace in place when the key exists, else append
(insertion order is preserved, as in a Python dict). -/
def ainsert {κ α : Type} [DecidableEq κ] (xs : List (κ × α)) (k : κ) (v : α) : List (κ × α) :=
  match xs with
  | [] => [(k, v)]
  | (k0, v0) :: rest => if k0 = k then (k0, v) :: rest else (k0, v0) :: ainsert rest k v

/-- The entries left after Python `d.pop(k, ...)`: the first entry with the
key is dropped. -/
def aerase {κ α : Type} [DecidableEq κ] (xs : List (κ × α)) (k : κ) : List (κ × α) :=
  match xs with
  | [] => []
  | (k0, v0) :: rest => if k0 = k then rest else (k0, v0) :: aerase rest k

theorem alookup_ainsert_self {κ α : Type} [DecidableEq κ] (xs : List (κ × α)) (k : κ) (v : α) :
    alookup (ainsert xs k v) k = some v := by
  induction xs with
  | nil => simp [ainsert, alookup]
  | cons hd tl ih =>
    obtain ⟨k0, v0⟩ := hd
    by_cases h : k0 = k
    · simp [ainsert, alookup, h]
    · simp [ainsert, alookup, h, ih]

theorem alookup_ainsert_other {κ α : Type} [DecidableEq κ] (xs : List (κ × α)) (k j : κ) (v : α)
    (h : j ≠ k) : alookup (ainsert xs k v) j = alookup xs j := by
  induction xs with
  | nil => simp [ainsert, alookup, Ne.symm h]
  | cons hd tl ih =>
    obtain ⟨k0, v0⟩ := hd
    by_cases h0 : k0 = k
    · subst h0
      simp [ainsert, alookup, Ne.symm h]
    · simp only [ainsert, if_neg h0, alookup]
      by_cases h1 : k0 = j <;> simp [h1, ih]

theorem alookup_eq_none_of_not_mem {κ α : Type} [DecidableEq κ] (xs : List (κ × α)) (k : κ)
    (h : k ∉ xs.map Prod.fst) : alookup xs k = Option.none := by
  induction xs with
  | nil => simp [alookup]
  | cons hd tl ih =>
    obtain ⟨k0, v0⟩ := hd
    simp only [List.map_cons, List.mem_cons] at h
    push_neg at h
    simp only [alookup, if_neg (Ne.symm h.1)]
    exact ih h.2

theorem alookup_aerase_self {κ α : Type} [DecidableEq κ] (xs : List (κ × α)) (k : κ)
    (hnd : (xs.map Prod.fst).Nodup) : alookup (aerase xs k) k = Option.none := by
  induction xs with
  | nil => simp [aerase, alookup]
  | cons hd tl ih =>
    obtain ⟨k0, v0⟩ := hd
    simp only [List.map_cons, List.nodup_cons] at hnd
    by_cases h : k0 = k
    · subst h
      simpa [aerase] using alookup_eq_none_of_not_mem tl k0 hnd.1
    · simp only [aerase, if_neg h, alookup, if_neg h]
      exact ih hnd.2

/-- An `Options` bag (`features.py`): a dict from option name to value. -/
abbrev OptDict : Type := List (String × PVal)

/-- `Options.__getattr__` (`features.py` lines 13-14): `return self[name]`,
so a missing key raises `KeyError(name)`. -/
def Options.attr (o : OptDict) (name : String) : Except PyErr PVal :=
  match alookup o name with
  | some v => Except.ok v
  | Option.none => Except.error (PyErr.keyError name)

/-- The outbound messages the embedded flows construct (`messages.py`):
only the fields the router core fills are modelled. -/
inductive WMsg where
  | result (request_id : Nat) (details : OptDict) (args : List PVal) (kwargs : OptDict)
  | interrupt (request_id : Nat) (options : OptDict)
  | event (subscription_id : Nat) (publication_id : Nat) (details : OptDict)
      (args : List PVal) (kwargs : OptDict)
  | published (request_id : Nat) (publication_id : Nat)
  | errorMsg (request_code : Nat) (request_id : Nat) (uri : String)
  deriving Repr

/-- A YIELD message as `YieldProcessor` hands it to `Procedure.yield_result`
(`messages.py` `YieldMessage`): request id, options, args, kwargs. -/
structure YieldMessage where
  request_id : Nat
  options : OptDict
  args : List PVal
  kwargs : OptDict

/-- One entry of `Procedure.pending` (`uri/procedure.py` line 56):
`(invoking handler, submission time, call options)`.  Handlers are referred
to by their session id; `request_time` is an abstract timestamp. -/
structure PendingEntry where
  invoking_handler : Nat
  request_time : Nat
  call_options : OptDict

/-- What one call of `Procedure.yield_result` leaves behind: the pending
table afterwards, the messages written (in order, each to a handler), whether
`warn` ran, and the Python exception escaping the call, if any. -/
structure YieldOutcome where
  pending : List (Nat × PendingEntry)
  writes : List (Nat × WMsg)
  warned : Bool
  err : Option PyErr

/-- `Procedure.yield_result` (`uri/procedure.py` lines 82-98).  The class-wide
`Procedure.pending` dict is passed in and returned explicitly.  Control flow
follows the source: on a pending hit the RESULT is written first, then
`yield_msg.options.progress` and (only if that is truthy) the recorded call
options' `receive_progress` are read — each a bare attribute access that
raises `KeyError` when the key is absent, after the RESULT write but before
the `pending.pop`.  On a miss, `options.progress` is read; when truthy an
INTERRUPT with `mode=killnowait` goes back to the yielding handler, and
`warn` runs. -/
def yield_result (pending : List (Nat × PendingEntry)) (yielding_handler : Nat)
    (yield_msg : YieldMessage) : YieldOutcome :=
  match alookup pending yield_msg.request_id with
  | some entry =>
    let writes := [(entry.invoking_handler,
      WMsg.result yield_msg.request_id yield_msg.options yield_msg.args yield_msg.kwargs)]
    match Options.attr yield_msg.options "progress" with
    | Except.error e => ⟨pending, writes, false, some e⟩
    | Except.ok p =>
      if !p.truthy then
        ⟨aerase pending yield_msg.request_id, writes, false, Option.none⟩
      else
        match Options.attr entry.call_options "receive_progress" with
        | Except.error e => ⟨pending, writes, false, some e⟩
        | Except.ok rp =>
          if !rp.truthy then
            ⟨aerase pending yield_msg.request_id, writes, false, Option.none⟩
          else
            ⟨pending, writes, false, Option.none⟩
  | Option.none =>
    match Options.attr yield_msg.options "progress" with
    | Except.error e => ⟨pending, [], false, some e⟩
    | Except.ok p =>
      if p.truthy then
        ⟨pending,
         [(yielding_handler,
           WMsg.interrupt yield_msg.request_id [("mode", PVal.pystr "killnowait")])],
         true, Option.none⟩
      else
        ⟨pending, [], true, Option.none⟩

/-- Modelled from the spec: the identifier module (`wampnado/identifier.py`)
is not among the source files.  §4.1 requires only that ids are unique
53-bit non-negative integers; the model issues them from a counter threaded
through the state (`nextId`), and `SERVER_SESSION_ID` is the distinguished
session id a pseudo-subscriber reports (`uri/topic.py` lines 32-37). -/
def SERVER_SESSION_ID : Nat := 0

/-- A connected handler, referred to by its session id
(`handler.sessionid`). -/
structure Handler where
  sessionid : Nat
  deriving Repr, DecidableEq

/-- One entry of `Topic.subscribers` (`uri/topic.py` class `Subscriber`):
either a pseudo-subscriber wrapping a local callback, or a handler. -/
inductive Subscriber where
  | pseudoSub (callback : Nat)
  | handlerSub (sessionid : Nat)
  deriving Repr, DecidableEq

/-- `Subscriber.pseudo` (`uri/topic.py` lines 22-27). -/
def Subscriber.pseudo : Subscriber → Bool
  | .pseudoSub _ => true
  | .handlerSub _ => false

/-- `Subscriber.sessionid` (`uri/topic.py` lines 32-37): pseudo-subscribers
report `SERVER_SESSION_ID`, handlers their own session id. -/
def Subscriber.sessionid : Subscriber → Nat
  | .pseudoSub _ => SERVER_SESSION_ID
  | .handlerSub s => s

/-- A PUBLISH message as `Topic.publish` receives it (`messages.py`
`PublishMessage`): request id, options, uri name, args, kwargs. -/
structure PublishMsg where
  request_id : Nat
  options : OptDict
  uri_name : String
  args : List PVal
  kwargs : OptDict

/-- One step of the subscriber loop in `Topic.publish`: a pseudo-subscriber's
callback invocation, or an EVENT written to a subscriber's handler. -/
inductive PubEffect where
  | callbackCall (subscription_id : Nat) (args : List PVal) (kwargs : OptDict)
  | write (subscription_id : Nat) (msg : WMsg)
  deriving Repr

/-- The subscriber loop of `Topic.publish` (`uri/topic.py` lines 63-71), in
dict insertion order: pseudo-subscribers get their callback called with the
broadcast args/kwargs; every other subscriber gets an EVENT carrying its
subscription id and the publication id — written only when its session id
differs from the publisher's (`uri/topic.py` line 70). -/
def publishLoop (origin_sessionid publication_id : Nat) (args : List PVal) (kwargs : OptDict) :
    List (Nat × Subscriber) → List PubEffect
  | [] => []
  | (sid, sub) :: rest =>
    if sub.pseudo then
      PubEffect.callbackCall sid args kwargs
        :: publishLoop origin_sessionid publication_id args kwargs rest
    else if sub.sessionid ≠ origin_sessionid then
      PubEffect.write sid (WMsg.event sid publication_id [] args kwargs)
        :: publishLoop origin_sessionid publication_id args kwargs rest
    else
      publishLoop origin_sessionid publication_id args kwargs rest

/-- What one call of `Topic.publish` leaves behind: the loop's effects, the
returned answer (a PUBLISHED or nothing), and the escaping exception if any. -/
structure PublishOutcome where
  effects : List PubEffect
  ret : Option WMsg
  err : Option PyErr

/-- `Topic.publish` (`uri/topic.py` lines 53-76).  `publication_id` is the
fresh global id the source draws at line 61.  After the loop the source reads
`broadcast_msg.options.acknowlege` (misspelled in the source): a bare
attribute access, so a `KeyError` escapes whenever the options lack that
exact key — after the events have been written.  When the key is present and
truthy the source returns a PUBLISHED whose publication id is
`self.registration_id` (line 74). -/
def Topic.publish (registration_id : Nat) (subscribers : List (Nat × Subscriber))
    (origin_sessionid : Nat) (broadcast_msg : PublishMsg) (publication_id : Nat) :
    PublishOutcome :=
  let effects := publishLoop origin_sessionid publication_id
    broadcast_msg.args broadcast_msg.kwargs subscribers
  match Options.attr broadcast_msg.options "acknowlege" with
  | Except.error e => ⟨effects, Option.none, some e⟩
  | Except.ok v =>
    if v.truthy then
      ⟨effects, some (WMsg.published broadcast_msg.request_id registration_id), Option.none⟩
    else
      ⟨effects, Option.none, Option.none⟩

/-- `Topic.remove_subscriber` (`uri/topic.py` lines 78-83): pops
`handler.sessionid` from `self.subscribers` — a dict keyed by
subscription id (line 90) — when that value happens to be a key. -/
def Topic.remove_subscriber (subscribers : List (Nat × Subscriber))
    (handler_sessionid : Nat) : List (Nat × Subscriber) :=
  if (alookup subscribers handler_sessionid).isSome then
    aerase subscribers handler_sessionid
  else
    subscribers

/-- `Topic.add_subscriber` (`uri/topic.py` lines 85-92): stores the new
subscriber under its fresh subscription id. -/
def Topic.add_subscriber (subscribers : List (Nat × Subscriber)) (subscription_id : Nat)
    (sub : Subscriber) : List (Nat × Subscriber) :=
  ainsert subscribers subscription_id sub

/-- A registered URI (`uri/__init__.py`, `uri/topic.py`, `uri/procedure.py`,
`uri/error.py`): a Topic with its subscribers, a Procedure with its pseudo
flag and provider (the provider's session id; `Option.none` once removed;
pseudo procedures never have one), or an Error. -/
inductive URIObj where
  | topic (name : String) (registration_id : Nat) (subscribers : List (Nat × Subscriber))
  | procedure (name : String) (registration_id : Nat) (pseudo : Bool) (provider : Option Nat)
  | error (name : String) (registration_id : Nat)
  deriving Repr

/-- `uri.registration_id`. -/
def URIObj.registration_id : URIObj → Nat
  | .topic _ rid _ => rid
  | .procedure _ rid _ _ => rid
  | .error _ rid => rid

/-- `uri.name`. -/
def URIObj.name : URIObj → String
  | .topic n _ _ => n
  | .procedure n _ _ _ => n
  | .error n _ => n

/-- Whether `uri.uri_type == URIType.TOPIC`. -/
def URIObj.isTopic : URIObj → Bool
  | .topic _ _ _ => true
  | _ => false

/-- `live` (`uri/topic.py` lines 101-106, `uri/procedure.py` lines 78-80,
`uri/error.py` lines 69-71): a Topic is live iff it keeps a subscriber, a
Procedure iff it has a provider or is pseudo, an Error always. -/
def URIObj.live : URIObj → Bool
  | .topic _ _ subs => !subs.isEmpty
  | .procedure _ _ pseudo provider => provider.isSome || pseudo
  | .error _ _ => true

/-- `uri.disconnect(handler)` (`uri/topic.py` lines 95-99, `uri/procedure.py`
lines 71-76, `uri/error.py` lines 65-68): a Topic delegates to
`remove_subscriber`; a non-pseudo Procedure drops its provider when the
session ids match; an Error does nothing. -/
def URIObj.disconnect (u : URIObj) (handler_sessionid : Nat) : URIObj :=
  match u with
  | .topic n rid subs => .topic n rid (Topic.remove_subscriber subs handler_sessionid)
  | .procedure n rid pseudo provider =>
    if !pseudo && provider = some handler_sessionid then
      .procedure n rid pseudo Option.none
    else
      .procedure n rid pseudo provider
  | .error n rid => .error n rid

/-- A character admitted by the URI pattern `[0-9a-z_]`
(`uri/manager.py` line 25). -/
def isUriChar (c : Char) : Bool :=
  c.isDigit || ('a' ≤ c && c ≤ 'z') || c == '_'

/-- The automaton of `uri_pattern` = `^([0-9a-z_]+\.)*([0-9a-z_]+)$`:
`seen` records whether the current segment already holds a character; a dot
is only legal after one, and the name must end inside a non-empty segment. -/
def uriMatchAux : List Char → Bool → Bool
  | [], seen => seen
  | c :: rest, seen =>
    if c = '.' then
      if seen then uriMatchAux rest false else false
    else if isUriChar c then
      uriMatchAux rest true
    else
      false

/-- Whether `uri_pattern` = `^([0-9a-z_]+\.)*([0-9a-z_]+)$` matches the
name: dot-separated segments, each non-empty and over `[0-9a-z_]`. -/
def uriPatternMatch (s : String) : Bool :=
  uriMatchAux s.toList false

/-- The state of a `URIManager` (`uri/manager.py` lines 18-23): the
registration-id index `registrations : id → name`, the name index
`uris : name → URI`, and the id counter standing in for `create_global_id`. -/
structure URIManager where
  registrations : List (Nat × String)
  uris : List (String × URIObj)
  nextId : Nat
  deriving Repr

/-- The error URIs `URIManager.__init__` reserves, in source order
(`uri/manager.py` lines 28-56). -/
def managerErrorNames : List String :=
  ["wamp.close.close_realm", "wamp.close.goodbye_and_out",
   "wamp.error.invalid_uri", "wamp.error.no_such_procedure",
   "wamp.error.procedure_already_exists", "wamp.error.no_such_registration",
   "wamp.error.no_such_subscription", "wamp.error.invalid_argument",
   "wamp.close.system_shutdown", "wamp.error.protocol_violation",
   "wamp.error.not_authorized", "wamp.error.authorization_failed",
   "wamp.error.no_such_realm", "wamp.error.no_such_role",
   "wamp.error.canceled", "wamp.error.option_not_allowed",
   "wamp.error.no_eligible_callee", "wamp.error.option_disallowed.disclose_me",
   "wamp.error.network_failure", "wamp.error.not_pending",
   "wamp.error.unsupported", "wamp.error.general_error"]

/-- `URIManager.get` (`uri/manager.py` lines 59-66): raises `invalid_uri`
when the name misses the pattern, else the indexed URI or `None`. -/
def URIManager.get (m : URIManager) (uri_name : String) : Except PyErr (Option URIObj) :=
  if uriPatternMatch uri_name then
    Except.ok (alookup m.uris uri_name)
  else
    Except.error (PyErr.wampError "wamp.error.invalid_uri")

/-- `URIManager.create` (`uri/manager.py` lines 68-83).  The URI object has
been constructed by the caller (consuming its global ids) before this runs.
When the name is free, both indices gain an entry; when it is taken, the
existing URI is returned (`returnifexists`) or `None` is returned. -/
def URIManager.create (m : URIManager) (name : String) (uri_obj : URIObj)
    (returnifexists : Bool) : URIManager × Except PyErr (Option (URIObj × Nat)) :=
  match m.get name with
  | Except.error e => (m, Except.error e)
  | Except.ok (some uri) =>
    if returnifexists then
      (m, Except.ok (some (uri, uri.registration_id)))
    else
      (m, Except.ok Option.none)
  | Except.ok Option.none =>
    ({ m with uris := ainsert m.uris name uri_obj,
              registrations := ainsert m.registrations uri_obj.registration_id name },
     Except.ok (some (uri_obj, uri_obj.registration_id)))

/-- `URIManager.create_topic` (`uri/manager.py` lines 86-95).  `Topic(name)`
is constructed first and consumes two global ids (`URI.__init__` and then
`Topic.__init__` line 51 overriding `registration_id`); then `create` runs
with `returnifexists` left `True`, and a non-Topic result raises
`no_such_subscription`. -/
def URIManager.create_topic (m : URIManager) (name : String) :
    URIManager × Except PyErr (URIObj × Nat) :=
  let obj := URIObj.topic name (m.nextId + 1) []
  let m1 : URIManager := { m with nextId := m.nextId + 2 }
  match m1.create name obj true with
  | (m2, Except.error e) => (m2, Except.error e)
  | (m2, Except.ok (some (uri, rid))) =>
    if uri.isTopic then
      (m2, Except.ok (uri, rid))
    else
      (m2, Except.error (PyErr.wampError "wamp.error.no_such_subscription"))
  | (m2, Except.ok Option.none) =>
    (m2, Except.error (PyErr.typeError "NoneType object is not subscriptable"))

/-- `URIManager.create_error` (`uri/manager.py` lines 98-104): an `Error`
consumes one global id; `create` runs with `returnifexists` left `True`. -/
def URIManager.create_error (m : URIManager) (name : String) :
    URIManager × Except PyErr (URIObj × Nat) :=
  let obj := URIObj.error name m.nextId
  let m1 : URIManager := { m with nextId := m.nextId + 1 }
  match m1.create name obj true with
  | (m2, Except.error e) => (m2, Except.error e)
  | (m2, Except.ok (some (uri, rid))) => (m2, Except.ok (uri, rid))
  | (m2, Except.ok Option.none) =>
    (m2, Except.error (PyErr.typeError "NoneType object is not subscriptable"))

/-- `URIManager.create_procedure` (`uri/manager.py` lines 106-114): a
`Procedure` with the handler as provider consumes one global id; `create`
runs with `returnifexists=False`, and a `None` result raises
`procedure_already_exists`. -/
def URIManager.create_procedure (m : URIManager) (name : String) (provider : Handler) :
    URIManager × Except PyErr (URIObj × Nat) :=
  let obj := URIObj.procedure name m.nextId false (some provider.sessionid)
  let m1 : URIManager := { m with nextId := m.nextId + 1 }
  match m1.create name obj false with
  | (m2, Except.error e) => (m2, Except.error e)
  | (m2, Except.ok (some (uri, rid))) => (m2, Except.ok (uri, rid))
  | (m2, Except.ok Option.none) =>
    (m2, Except.error (PyErr.wampError "wamp.error.procedure_already_exists"))

/-- `URIManager.remove` (`uri/manager.py` lines 117-126).  The source pops
the registration id, then — when a name came back — runs
`for registration_id, registration_uri in self.registrations:`, which
iterates the dict's integer KEYS and unpacks each into a pair: whenever any
registration remains that raises `TypeError` before `self.uris` is touched.
Only when no registration remains does `self.uris.pop(name)` run. -/
def URIManager.remove (m : URIManager) (registration_id : Nat) :
    URIManager × Except PyErr (Option URIObj) :=
  match alookup m.registrations registration_id with
  | Option.none => (m, Except.ok Option.none)
  | some name =>
    let regs := aerase m.registrations registration_id
    let m1 : URIManager := { m with registrations := regs }
    if regs.isEmpty then
      match alookup m1.uris name with
      | some u => ({ m1 with uris := aerase m1.uris name }, Except.ok (some u))
      | Option.none => (m1, Except.error (PyErr.keyError name))
    else
      (m1, Except.error (PyErr.typeError "cannot unpack non-iterable int object"))

/-- `URIManager.add_subscriber` (`uri/manager.py` lines 129-135):
`create_topic` first, then `self.uris[uri.name].add_subscriber(handler)` —
the stored Topic gains a `Subscriber` whose fresh subscription id is the key. -/
def URIManager.add_subscriber (m : URIManager) (uri_name : String) (handler : Handler) :
    URIManager × Except PyErr Nat :=
  match m.create_topic uri_name with
  | (m1, Except.error e) => (m1, Except.error e)
  | (m1, Except.ok (uri, _)) =>
    match alookup m1.uris uri.name with
    | some (URIObj.topic n rid subs) =>
      ({ m1 with nextId := m1.nextId + 1,
                 uris := ainsert m1.uris n (URIObj.topic n rid
                   (Topic.add_subscriber subs m1.nextId
                     (Subscriber.handlerSub handler.sessionid))) },
       Except.ok m1.nextId)
    | _ => (m1, Except.error (PyErr.attributeError "add_subscriber"))

/-- `URIManager.disconnect` (`uri/manager.py` lines 150-158): every URI gets
`disconnect(handler)`, and the ones reporting non-live are deleted from
`self.uris`.  `self.registrations` is not touched. -/
def URIManager.disconnect (m : URIManager) (handler : Handler) : URIManager :=
  { m with uris := ((m.uris.map (fun p => (p.1, p.2.disconnect handler.sessionid))).filter
      (fun p => p.2.live)) }

/-- The registry of a fresh `URIManager` (`uri/manager.py` `__init__`):
the reserved error URIs created in source order, ids issued from 1. -/
def URIManager.init : URIManager :=
  managerErrorNames.foldl (fun m n => (m.create_error n).1) ⟨[], [], 1⟩

/-- The two-index consistency invariant of the claim (spec §8): every name
maps through its URI's registration id back to itself, and every
registration id maps through its name to a URI carrying that id. -/
def registryConsistent (m : URIManager) : Bool :=
  (m.uris.all (fun p => alookup m.registrations p.2.registration_id == some p.1)) &&
  (m.registrations.all (fun q =>
    match alookup m.uris q.2 with
    | some u => u.registration_id == q.1
    | Option.none => false))

/-- A value compared by `Roles.authorize` (`auth.py`): a handler's
`authid`/`authrole` (a string or `None`) or `sessionid` (an integer or
`None`), and the entries of a role's white/blacklists. -/
inductive AuthVal where
  | avnone
  | avstr (s : String)
  | avint (n : Int)
  deriving Repr, DecidableEq

/-- Python `x is None` on an auth value. -/
def AuthVal.isNone : AuthVal → Bool
  | .avnone => true
  | _ => false

/-- Python `x in lst` over auth values. -/
def pyIn (x : AuthVal) (l : List AuthVal) : Bool :=
  match l with
  | [] => false
  | y :: rest => if x = y then true else pyIn x rest

theorem pyIn_iff_mem (x : AuthVal) (l : List AuthVal) : pyIn x l = true ↔ x ∈ l := by
  induction l with
  | nil => simp [pyIn]
  | cons y rest ih =>
    by_cases h : x = y
    · simp [pyIn, h]
    · simp [pyIn, h, ih]

/-- One role's permission state (`auth.py` `Roles.register` line 18):
`{blacklist, whitelist, default}` — `defaultAllow` models the source's
`default` field. -/
structure PermTable where
  blacklist : List AuthVal
  whitelist : List AuthVal
  defaultAllow : Bool
  deriving Repr, DecidableEq

/-- `Roles.authorize` (`auth.py` lines 40-63).  The role's table is looked
up; inside the `perm_tables is not None` branch one nine-way disjunction
grants; otherwise control falls through to `raise not_authorized` (or
`return False` under `noraise`). -/
def Roles.authorize (roles : List (String × PermTable)) (role : String)
    (authid authrole sessionid : AuthVal) (noraise : Bool) : Except PyErr Bool :=
  match alookup roles role with
  | some pt =>
    if pyIn authid pt.whitelist || pyIn authrole pt.whitelist || pyIn sessionid pt.whitelist
        || (authid.isNone && pt.defaultAllow)
        || (authrole.isNone && pt.defaultAllow)
        || (sessionid.isNone && pt.defaultAllow)
        || !pyIn authid pt.blacklist
        || !pyIn authrole pt.blacklist
        || !pyIn sessionid pt.blacklist then
      Except.ok true
    else if noraise then
      Except.ok false
    else
      Except.error (PyErr.wampError "wamp.error.not_authorized")
  | Option.none =>
    if noraise then
      Except.ok false
    else
      Except.error (PyErr.wampError "wamp.error.not_authorized")

/-- The grant condition in the spec's words (§4.9), for comparison with the
source's `Roles.authorize`: the session's auth_id, auth_role or session_id
is whitelisted, or a principal component is unset and the role's default
allows, or a principal component is not blacklisted. -/
def specAuthorizeGrants (pt : PermTable) (authid authrole sessionid : AuthVal) : Prop :=
  (authid ∈ pt.whitelist ∨ authrole ∈ pt.whitelist ∨ sessionid ∈ pt.whitelist)
  ∨ ((authid = AuthVal.avnone ∨ authrole = AuthVal.avnone ∨ sessionid = AuthVal.avnone)
      ∧ pt.defaultAllow = true)
  ∨ (authid ∉ pt.blacklist ∨ authrole ∉ pt.blacklist ∨ sessionid ∉ pt.blacklist)

/-- A base64 digit of the standard alphabet (`base64.b64encode`). -/
def b64Digit (n : Nat) : Char :=
  if n < 26 then Char.ofNat (65 + n)
  else if n < 52 then Char.ofNat (97 + (n - 26))
  else if n < 62 then Char.ofNat (48 + (n - 52))
  else if n = 62 then '+'
  else '/'

/-- Standard base64 of a byte list (`base64.b64encode`, an external library
collaborator of `messages.py`). -/
def b64encode : List Nat → List Char
  | [] => []
  | [a] => [b64Digit (a / 4 % 64), b64Digit (a % 4 * 16), '=', '=']
  | [a, b] => [b64Digit (a / 4 % 64), b64Digit (a % 4 * 16 + b / 16 % 16),
               b64Digit (b % 16 * 4), '=']
  | a :: b :: c :: rest =>
    b64Digit (a / 4 % 64) :: b64Digit (a % 4 * 16 + b / 16 % 16)
      :: b64Digit (b % 16 * 4 + c / 64 % 4) :: b64Digit (c % 64) :: b64encode rest

mutual

/-- `encode_bin_as_b64` (`messages.py` lines 41-60): recursively walks the
structure; bytes become base64 text prefixed by the NUL sentinel, enum
members their numeric value (already numeric here), everything else passes
through. -/
def encode_bin_as_b64 : PVal → PVal
  | .pydict xs => .pydict (encodeDictB64 xs)
  | .pylist xs => .pylist (encodeListB64 xs)
  | .pybytes bs => .pystr (String.mk ('\x00' :: b64encode bs))
  | .pynone => .pynone
  | .pybool b => .pybool b
  | .pyint n => .pyint n
  | .pystr s => .pystr s

def encodeListB64 : List PVal → List PVal
  | [] => []
  | v :: rest => encode_bin_as_b64 v :: encodeListB64 rest

def encodeDictB64 : List (String × PVal) → List (String × PVal)
  | [] => []
  | (k, v) :: rest => (k, encode_bin_as_b64 v) :: encodeDictB64 rest

end

mutual

/-- `decode_b64` (`messages.py` lines 21-38): recursively walks the
structure; for a string it evaluates `s.beginswith` — a method `str` does
not have (`startswith` was meant) — so every string raises
`AttributeError` before any base64 decoding is reached. -/
def decode_b64 : PVal → Except PyErr PVal
  | .pydict xs =>
    match decodeDictB64 xs with
    | Except.ok r => Except.ok (.pydict r)
    | Except.error e => Except.error e
  | .pylist xs =>
    match decodeListB64 xs with
    | Except.ok r => Except.ok (.pylist r)
    | Except.error e => Except.error e
  | .pystr _ => Except.error (PyErr.attributeError "str object has no attribute beginswith")
  | .pynone => Except.ok .pynone
  | .pybool b => Except.ok (.pybool b)
  | .pyint n => Except.ok (.pyint n)
  | .pybytes bs => Except.ok (.pybytes bs)

def decodeListB64 : List PVal → Except PyErr (List PVal)
  | [] => Except.ok []
  | v :: rest =>
    match decode_b64 v with
    | Except.error e => Except.error e
    | Except.ok v2 =>
      match decodeListB64 rest with
      | Except.error e => Except.error e
      | Except.ok rest2 => Except.ok (v2 :: rest2)

def decodeDictB64 : List (String × PVal) → Except PyErr (List (String × PVal))
  | [] => Except.ok []
  | (k, v) :: rest =>
    match decode_b64 v with
    | Except.error e => Except.error e
    | Except.ok v2 =>
      match decodeDictB64 rest with
      | Except.error e => Except.error e
      | Except.ok rest2 => Except.ok ((k, v2) :: rest2)

end

/-- The message kind codes of `messages.py` `Code`. -/
def knownCodes : List Int :=
  [1, 2, 3, 6, 8, 16, 17, 32, 33, 34, 35, 36, 48, 50, 64, 65, 68, 69, 70]

/-- `Message.json` (`messages.py` lines 181-187): the emitted JSON document,
modelled as the value `json.dumps` serialises — `encode_bin_as_b64` applied
to a copy of the positional tuple.  (`json.dumps`/`json.loads` of the
standard library round-trip these plain values and are external
collaborators.) -/
def Message.json (value : List PVal) : PVal :=
  encode_bin_as_b64 (PVal.pylist value)

/-- `Message.from_text` (`messages.py` lines 210-217): `decode_b64` over the
parsed document, then `raw[0] = Code(raw[0])` — an `IndexError` on an empty
array, a `ValueError` on an unknown kind code, and numerically the identity
on a known one. -/
def Message.from_text (doc : PVal) : Except PyErr (List PVal) :=
  match decode_b64 doc with
  | Except.error e => Except.error e
  | Except.ok (PVal.pylist []) => Except.error (PyErr.typeError "list index out of range")
  | Except.ok (PVal.pylist (PVal.pyint c :: rest)) =>
    if knownCodes.contains c then
      Except.ok (PVal.pyint c :: rest)
    else
      Except.error (PyErr.typeError "not a valid Code")
  | Except.ok _ => Except.error (PyErr.typeError "raw is not an array of a Code")

/-- What one `PublishProcessor.process` run leaves behind: the publish
loop's effects, the processor's answer message, and the escaping exception
if any. -/
structure ProcOutcome where
  effects : List PubEffect
  answer : Option WMsg
  err : Option PyErr

/-- `PublishProcessor.process` (`processors/pubsub.py` lines 51-65), with
the uri lookup resolved to the registry's `URIManager.get` (the symbol the
realm delegates publishing state to) and the `authorize` call taken as
granting.  The source binds `uri = realm.get(...)` — `None` when no Topic is
registered under the name — and then evaluates `uri.publish(self.handler,
received_message)` unconditionally, so an absent Topic raises
`AttributeError` instead of answering; a non-Topic URI has no `publish`
attribute either. -/
def PublishProcessor.process (m : URIManager) (origin : Handler) (msg : PublishMsg)
    (publication_id : Nat) : ProcOutcome :=
  match m.get msg.uri_name with
  | Except.error e => ⟨[], Option.none, some e⟩
  | Except.ok Option.none =>
    ⟨[], Option.none, some (PyErr.attributeError "NoneType object has no attribute publish")⟩
  | Except.ok (some (URIObj.topic _ rid subs)) =>
    match Topic.publish rid subs origin.sessionid msg publication_id with
    | ⟨effects, ret, err⟩ => ⟨effects, ret, err⟩
  | Except.ok (some _) =>
    ⟨[], Option.none, some (PyErr.attributeError "object has no attribute publish")⟩

/-- Whether the effect list of a publish carries an EVENT write to the
subscriber stored under `subscription_id`. -/
def writesEventTo : List PubEffect → Nat → Bool
  | [], _ => false
  | PubEffect.write s _ :: rest, sid => if s = sid then true else writesEventTo rest sid
  | PubEffect.callbackCall _ _ _ :: rest, sid => writesEventTo rest sid

theorem publish_effects_eq (rid : Nat) (subs : List (Nat × Subscriber)) (origin : Nat)
    (msg : PublishMsg) (pubId : Nat) :
    (Topic.publish rid subs origin msg pubId).effects
      = publishLoop origin pubId msg.args msg.kwargs subs := by
  rcases h : Options.attr msg.options "acknowlege" with e | v
  · simp [Topic.publish, h]
  · by_cases hv : v.truthy <;> simp [Topic.publish, h, hv]

theorem publishLoop_cons (o p : Nat) (a : List PVal) (k : OptDict) (s0 : Nat)
    (sub0 : Subscriber) (tl : List (Nat × Subscriber)) :
    publishLoop o p a k ((s0, sub0) :: tl)
      = if sub0.pseudo then PubEffect.callbackCall s0 a k :: publishLoop o p a k tl
        else if sub0.sessionid ≠ o then
          PubEffect.write s0 (WMsg.event s0 p [] a k) :: publishLoop o p a k tl
        else publishLoop o p a k tl := rfl

theorem writesEventTo_cons_write (s : Nat) (msg : WMsg) (rest : List PubEffect) (sid : Nat) :
    writesEventTo (PubEffect.write s msg :: rest) sid
      = if s = sid then true else writesEventTo rest sid := rfl

theorem writesEventTo_cons_callback (s : Nat) (a : List PVal) (k : OptDict)
    (rest : List PubEffect) (sid : Nat) :
    writesEventTo (PubEffect.callbackCall s a k :: rest) sid = writesEventTo rest sid := rfl

theorem writesEventTo_loop_not_mem (o p : Nat) (a : List PVal) (k : OptDict)
    (l : List (Nat × Subscriber)) (sid : Nat) (h : sid ∉ l.map Prod.fst) :
    writesEventTo (publishLoop o p a k l) sid = false := by
  induction l with
  | nil => rfl
  | cons hd tl ih =>
    obtain ⟨s0, sub0⟩ := hd
    simp only [List.map_cons, List.mem_cons] at h
    push_neg at h
    rw [publishLoop_cons]
    by_cases hp : sub0.pseudo
    · rw [if_pos hp, writesEventTo_cons_callback]
      exact ih h.2
    · rw [if_neg hp]
      by_cases hs : sub0.sessionid = o
      · rw [if_neg (not_not_intro hs)]
        exact ih h.2
      · rw [if_pos hs, writesEventTo_cons_write, if_neg (Ne.symm h.1)]
        exact ih h.2

theorem writesEventTo_loop (o p : Nat) (a : List PVal) (k : OptDict)
    (l : List (Nat × Subscriber)) (hnd : (l.map Prod.fst).Nodup)
    (sid : Nat) (sub : Subscriber) (hmem : (sid, sub) ∈ l) :
    writesEventTo (publishLoop o p a k l) sid = true
      ↔ (sub.pseudo = false ∧ sub.sessionid ≠ o) := by
  induction l with
  | nil => cases hmem
  | cons hd tl ih =>
    obtain ⟨s0, sub0⟩ := hd
    simp only [List.map_cons, List.nodup_cons] at hnd
    rw [publishLoop_cons]
    rcases List.mem_cons.mp hmem with heq | hmem2
    · injection heq with h1 h2
      subst h1
      subst h2
      by_cases hp : sub.pseudo
      · rw [if_pos hp, writesEventTo_cons_callback,
          writesEventTo_loop_not_mem o p a k tl sid hnd.1]
        simp [hp]
      · rw [if_neg hp]
        by_cases hs : sub.sessionid = o
        · rw [if_neg (not_not_intro hs), writesEventTo_loop_not_mem o p a k tl sid hnd.1]
          simp only [Bool.false_eq_true, false_iff]
          rintro ⟨-, hc⟩
          exact hc hs
        · rw [if_pos hs, writesEventTo_cons_write, if_pos rfl]
          simp only [true_iff]
          exact ⟨Bool.eq_false_iff.mpr hp, hs⟩
    · have hsid : sid ∈ tl.map Prod.fst := List.mem_map_of_mem Prod.fst hmem2
      have hne : s0 ≠ sid := fun hc => hnd.1 (hc ▸ hsid)
      by_cases hp : sub0.pseudo
      · rw [if_pos hp, writesEventTo_cons_callback]
        exact ih hnd.2 hmem2
      · rw [if_neg hp]
        by_cases hs : sub0.sessionid = o
        · rw [if_neg (not_not_intro hs)]
          exact ih hnd.2 hmem2
        · rw [if_pos hs, writesEventTo_cons_write, if_neg hne]
          exact ih hnd.2 hmem2

theorem create_topic_ok_lookup (m m1 : URIManager) (n : String) (u : URIObj) (rid : Nat)
    (h : m.create_topic n = (m1, Except.ok (u, rid))) :
    uriPatternMatch n = true ∧ alookup m1.uris n = some u ∧ u.isTopic = true
      ∧ u.registration_id = rid := by
  rcases hpat : uriPatternMatch n with _ | _
  · simp [URIManager.create_topic, URIManager.create, URIManager.get, hpat] at h
  · rcases hl : alookup m.uris n with _ | u0
    · simp only [URIManager.create_topic, URIManager.create, URIManager.get, hpat, if_true,
        hl, URIObj.isTopic, URIObj.registration_id, Prod.mk.injEq, Except.ok.injEq] at h
      obtain ⟨hm1, hu, hrid⟩ := h
      subst hm1
      subst hu
      subst hrid
      refine ⟨rfl, ?_, rfl, rfl⟩
      exact alookup_ainsert_self m.uris n _
    · rcases hT : u0.isTopic with _ | _
      · simp [URIManager.create_topic, URIManager.create, URIManager.get, hpat, hl, hT] at h
      · simp only [URIManager.create_topic, URIManager.create, URIManager.get, hpat, if_true,
          hl, hT, Prod.mk.injEq, Except.ok.injEq] at h
        obtain ⟨hm1, hu, hrid⟩ := h
        subst hm1
        subst hu
        subst hrid
        exact ⟨rfl, hl, hT, rfl⟩

theorem create_topic_of_existing (m : URIManager) (n : String) (u : URIObj)
    (hpat : uriPatternMatch n = true) (hl : alookup m.uris n = some u)
    (hT : u.isTopic = true) :
    m.create_topic n
      = ({ m with nextId := m.nextId + 2 }, Except.ok (u, u.registration_id)) := by
  simp [URIManager.create_topic, URIManager.create, URIManager.get, hpat, hl, hT]

theorem create_procedure_ok_lookup (m m1 : URIManager) (n : String) (h0 : Handler)
    (u : URIObj) (rid : Nat)
    (h : m.create_procedure n h0 = (m1, Except.ok (u, rid))) :
    uriPatternMatch n = true ∧ alookup m1.uris n = some u := by
  rcases hpat : uriPatternMatch n with _ | _
  · simp [URIManager.create_procedure, URIManager.create, URIManager.get, hpat] at h
  · rcases hl : alookup m.uris n with _ | u0
    · simp only [URIManager.create_procedure, URIManager.create, URIManager.get, hpat, if_true,
        hl, Prod.mk.injEq, Except.ok.injEq] at h
      obtain ⟨hm1, hu, hrid⟩ := h
      subst hm1
      subst hu
      exact ⟨rfl, alookup_ainsert_self m.uris n _⟩
    · simp [URIManager.create_procedure, URIManager.create, URIManager.get, hpat, hl] at h

theorem create_procedure_of_existing (m : URIManager) (n : String) (h2 : Handler)
    (u : URIObj) (hpat : uriPatternMatch n = true) (hl : alookup m.uris n = some u) :
    m.create_procedure n h2
      = ({ m with nextId := m.nextId + 1 },
         Except.error (PyErr.wampError "wamp.error.procedure_already_exists")) := by
  simp [URIManager.create_procedure, URIManager.create, URIManager.get, hpat, hl]

/-- Whether any Topic of the registry still holds a subscriber with the
given session id — what the claim about `disconnect` says must be false
afterwards. -/
def anyTopicHasSubscriberSession (m : URIManager) (sid : Nat) : Bool :=
  m.uris.any (fun p =>
    match p.2 with
    | URIObj.topic _ _ subs => subs.any (fun q => q.2.sessionid == sid)
    | _ => false)

/-- C1.  The claim says a YIELD whose `request_id` is pending gets a RESULT
written to the recorded caller and the entry removed unless
`progress=true` and `receive_progress=true`.  At the concrete pending table
`{7 ↦ (caller 1, t=0, call options {})}` and the plain YIELD
`[70, 7, {}]` — whose options carry no `progress` key, hence a
non-progressive yield that the claim requires to remove the entry — the
source writes the RESULT and then raises `KeyError` from the bare
`yield_msg.options.progress` attribute access, leaving the entry in the
table. -/
theorem c1_yield_without_progress_key_retains_entry :
    yield_result [(7, ⟨1, 0, []⟩)] 2 ⟨7, [], [PVal.pyint 3], []⟩
      = ⟨[(7, ⟨1, 0, []⟩)], [(1, WMsg.result 7 [] [PVal.pyint 3] [])], false,
         some (PyErr.keyError "progress")⟩ := rfl

/-- C2.  The claim says a YIELD whose `request_id` is not pending makes the
yielding session receive an ERROR `wamp.error.not_pending` and logs a
warning.  With an empty pending table the source instead: for
`[70, 9, {progress: true}]` from handler 4, writes an INTERRUPT with
`mode=killnowait` to the yielder and warns; and for `[70, 9, {}]` raises
`KeyError` before even warning.  No ERROR message is produced in either
case. -/
theorem c2_unpended_yield_interrupt_not_error :
    yield_result [] 4 ⟨9, [("progress", PVal.pybool true)], [], []⟩
        = ⟨[], [(4, WMsg.interrupt 9 [("mode", PVal.pystr "killnowait")])], true, Option.none⟩
      ∧ yield_result [] 4 ⟨9, [], [], []⟩
        = ⟨[], [], false, some (PyErr.keyError "progress")⟩ := ⟨rfl, rfl⟩

/-- C3.  The claim says the two registry indices stay mutually consistent
under every registry operation, `remove` included.  A fresh `URIManager`
(holding its 22 reserved error URIs) is consistent, but removing
registration id 1 (`wamp.close.close_realm`) pops the id from
`registrations`, then raises `TypeError` while tuple-unpacking the integer
keys of the remaining registrations, and never deletes the name from
`uris` — leaving a URI whose registration id the id index no longer
holds. -/
theorem c3_remove_breaks_registry_consistency :
    registryConsistent URIManager.init = true
      ∧ (URIManager.init.remove 1).2
        = Except.error (PyErr.typeError "cannot unpack non-iterable int object")
      ∧ registryConsistent (URIManager.init.remove 1).1 = false
      ∧ (alookup (URIManager.init.remove 1).1.uris "wamp.close.close_realm").isSome = true
      ∧ alookup (URIManager.init.remove 1).1.registrations 1 = Option.none :=
  ⟨rfl, rfl, rfl, rfl, rfl⟩

/-- C4.  The claim says that after `URIManager.disconnect(session)` no Topic
contains that session as a subscriber.  Starting from a fresh registry,
session 1 subscribes to `a.b` (stored under its fresh subscription id 25);
`disconnect` then calls `Topic.remove_subscriber`, which pops
`handler.sessionid` from the subscriber dict — a dict keyed by subscription
id — so the pop misses and the subscriber with session id 1 survives the
disconnect. -/
theorem c4_disconnect_leaves_topic_subscriber :
    anyTopicHasSubscriberSession
        (((URIManager.init.add_subscriber "a.b" ⟨1⟩).1).disconnect ⟨1⟩) 1 = true
      ∧ alookup (((URIManager.init.add_subscriber "a.b" ⟨1⟩).1).disconnect ⟨1⟩).uris "a.b"
        = some (URIObj.topic "a.b" 24 [(25, Subscriber.handlerSub 1)]) :=
  ⟨rfl, rfl⟩

/-- C5.  The claim says decoding the encoding of a well-formed message
round-trips under each serializer.  On the JSON path the decoder
`decode_b64` evaluates `s.beginswith` — a method `str` does not have
(`startswith` was meant) — so already the HELLO tuple `[1, "realm1", {}]`
raises `AttributeError` when decoded, instead of round-tripping. -/
theorem c5_json_decode_crashes_on_string :
    Message.from_text (Message.json [PVal.pyint 1, PVal.pystr "realm1", PVal.pydict []])
      = Except.error (PyErr.attributeError "str object has no attribute beginswith") := rfl

/-- C8.  The claim says a PUBLISH naming a valid URI with no existing Topic
is a silent no-op, or an ERROR `wamp.error.no_such_subscription` when
`acknowledge` is set.  The source binds the lookup result — `None` — and
calls `uri.publish(...)` on it unconditionally, so both the plain and the
acknowledged PUBLISH raise `AttributeError`: no events, no answer, and no
`no_such_subscription` ERROR in either case. -/
theorem c8_publish_absent_topic_attribute_error :
    PublishProcessor.process URIManager.init ⟨5⟩ ⟨200, [], "a.b", [PVal.pystr "x"], []⟩ 77
        = ⟨[], Option.none, some (PyErr.attributeError "NoneType object has no attribute publish")⟩
      ∧ PublishProcessor.process URIManager.init ⟨5⟩
          ⟨201, [("acknowledge", PVal.pybool true)], "a.b", [PVal.pystr "y"], []⟩ 78
        = ⟨[], Option.none, some (PyErr.attributeError "NoneType object has no attribute publish")⟩ :=
  ⟨rfl, rfl⟩

theorem AuthVal.isNone_iff (v : AuthVal) : v.isNone = true ↔ v = AuthVal.avnone := by
  cases v <;> simp [AuthVal.isNone]

theorem pyIn_eq_false_iff (x : AuthVal) (l : List AuthVal) : pyIn x l = false ↔ x ∉ l := by
  rw [← pyIn_iff_mem]
  cases pyIn x l <;> simp

theorem pyIn_not_iff (x : AuthVal) (l : List AuthVal) : (!pyIn x l) = true ↔ x ∉ l := by
  cases h : pyIn x l
  · rw [pyIn_eq_false_iff] at h
    simp [h]
  · rw [pyIn_iff_mem] at h
    simp [h]

/-- C6 (counterexample).  The claim, read over every subscriber, says an
EVENT is delivered to each subscriber whose session id differs from the
publisher's.  At a Topic whose only subscriber is a pseudo-subscriber —
whose session id is SERVER_SESSION_ID = 0, different from the publisher's
5 — the publish produces no EVENT write at all: the pseudo-subscriber's
callback is invoked instead (`uri/topic.py` lines 64-65). -/
theorem c6_pseudo_subscriber_gets_no_event :
    (Topic.publish 99 [(10, Subscriber.pseudoSub 0)] 5
        ⟨1, [("acknowlege", PVal.pybool false)], "a.b", [PVal.pyint 1], []⟩ 77).effects
      = [PubEffect.callbackCall 10 [PVal.pyint 1] []]
    ∧ Subscriber.sessionid (Subscriber.pseudoSub 0) ≠ 5 := ⟨rfl, by decide⟩

/-- C6 (amended).  `Topic.publish` writes an EVENT to a subscriber exactly
when the subscriber is not a pseudo-subscriber and its session id differs
from the publisher's session id; pseudo-subscribers have their callback
invoked instead of receiving an EVENT; in particular no subscriber whose
session id equals the publisher's — a session subscribed to the Topic it
publishes on — receives its own EVENT. -/
theorem c6_publish_event_iff_nonpseudo_other_session
    (rid origin pubId : Nat) (subs : List (Nat × Subscriber)) (msg : PublishMsg)
    (hnd : (subs.map Prod.fst).Nodup) (sid : Nat) (sub : Subscriber)
    (hmem : (sid, sub) ∈ subs) :
    writesEventTo (Topic.publish rid subs origin msg pubId).effects sid = true
      ↔ (sub.pseudo = false ∧ sub.sessionid ≠ origin) := by
  rw [publish_effects_eq]
  exact writesEventTo_loop origin pubId msg.args msg.kwargs subs hnd sid sub hmem

/-- C6 (witness): the amended theorem applied to a Topic holding one
foreign-session subscriber and one subscriber owned by the publisher. -/
theorem c6_publish_witness :
    writesEventTo (Topic.publish 99
        [(11, Subscriber.handlerSub 8), (12, Subscriber.handlerSub 5)] 5
        ⟨1, [], "a.b", [], []⟩ 77).effects 11 = true
      ↔ (Subscriber.pseudo (Subscriber.handlerSub 8) = false
          ∧ Subscriber.sessionid (Subscriber.handlerSub 8) ≠ 5) :=
  c6_publish_event_iff_nonpseudo_other_session 99 5 77
    [(11, Subscriber.handlerSub 8), (12, Subscriber.handlerSub 5)]
    ⟨1, [], "a.b", [], []⟩ (by decide) 11 (Subscriber.handlerSub 8) (by decide)

/-- C7.  Idempotence and exclusion of the creation operations: when
`create_topic(n)` has succeeded, calling it again returns the same
registration id and the same URI object and adds nothing to either index
(only the global id counter advances); when `create_procedure(n, p)` has
succeeded, calling it again fails with `procedure_already_exists` and
leaves both indices unchanged. -/
theorem c7_create_topic_idempotent_create_procedure_exclusive
    (mt mt1 : URIManager) (nt : String) (ut : URIObj) (ridt : Nat)
    (ht : mt.create_topic nt = (mt1, Except.ok (ut, ridt)))
    (mp mp1 : URIManager) (np : String) (hprov hprov2 : Handler) (up : URIObj) (ridp : Nat)
    (hpr : mp.create_procedure np hprov = (mp1, Except.ok (up, ridp))) :
    (mt1.create_topic nt
        = ({ mt1 with nextId := mt1.nextId + 2 }, Except.ok (ut, ridt))
      ∧ ({ mt1 with nextId := mt1.nextId + 2 } : URIManager).uris = mt1.uris
      ∧ ({ mt1 with nextId := mt1.nextId + 2 } : URIManager).registrations
          = mt1.registrations)
    ∧ (mp1.create_procedure np hprov2
        = ({ mp1 with nextId := mp1.nextId + 1 },
           Except.error (PyErr.wampError "wamp.error.procedure_already_exists"))
      ∧ ({ mp1 with nextId := mp1.nextId + 1 } : URIManager).uris = mp1.uris
      ∧ ({ mp1 with nextId := mp1.nextId + 1 } : URIManager).registrations
          = mp1.registrations) := by
  obtain ⟨hpat, hlook, hT, hrid⟩ := create_topic_ok_lookup mt mt1 nt ut ridt ht
  obtain ⟨hpatp, hlookp⟩ := create_procedure_ok_lookup mp mp1 np hprov up ridp hpr
  refine ⟨⟨?_, rfl, rfl⟩, ⟨?_, rfl, rfl⟩⟩
  · rw [create_topic_of_existing mt1 nt ut hpat hlook hT, hrid]
  · exact create_procedure_of_existing mp1 np hprov2 up hpatp hlookp

/-- C7 (witness): both halves at concrete registries — a registry that just
created topic `a.b` with registration id 2, and one that just registered
procedure `p.q` for session 1. -/
theorem c7_witness_concrete :
    (URIManager.mk [(2, "a.b")] [("a.b", URIObj.topic "a.b" 2 [])] 3).create_topic "a.b"
        = (URIManager.mk [(2, "a.b")] [("a.b", URIObj.topic "a.b" 2 [])] 5,
           Except.ok (URIObj.topic "a.b" 2 [], 2))
    ∧ (URIManager.mk [(1, "p.q")]
          [("p.q", URIObj.procedure "p.q" 1 false (some 1))] 2).create_procedure "p.q" ⟨9⟩
        = (URIManager.mk [(1, "p.q")]
            [("p.q", URIObj.procedure "p.q" 1 false (some 1))] 3,
           Except.error (PyErr.wampError "wamp.error.procedure_already_exists")) :=
  ⟨(c7_create_topic_idempotent_create_procedure_exclusive
      ⟨[], [], 1⟩ _ "a.b" _ _ rfl ⟨[], [], 1⟩ _ "p.q" ⟨1⟩ ⟨9⟩ _ _ rfl).1.1,
   (c7_create_topic_idempotent_create_procedure_exclusive
      ⟨[], [], 1⟩ _ "a.b" _ _ rfl ⟨[], [], 1⟩ _ "p.q" ⟨1⟩ ⟨9⟩ _ _ rfl).2.1⟩

/-- C9.  For a role with a permission table, `authorize` returns `True`
exactly under the spec's grant condition — a whitelist hit on auth id,
auth role or session id, or an unset principal component with the default
allowing, or a principal component missing from the blacklist — and in
every other case raises `not_authorized`; in particular a session whose
principal (all three components) is blacklisted, not whitelisted and fully
set is denied. -/
theorem c9_authorize_grant_characterization
    (roles : List (String × PermTable)) (role : String) (pt : PermTable)
    (authid authrole sessionid : AuthVal)
    (hrole : alookup roles role = some pt) :
    (Roles.authorize roles role authid authrole sessionid false = Except.ok true
        ↔ specAuthorizeGrants pt authid authrole sessionid)
    ∧ (¬ specAuthorizeGrants pt authid authrole sessionid →
        Roles.authorize roles role authid authrole sessionid false
          = Except.error (PyErr.wampError "wamp.error.not_authorized"))
    ∧ (authid ∈ pt.blacklist ∧ authrole ∈ pt.blacklist ∧ sessionid ∈ pt.blacklist
        ∧ authid ∉ pt.whitelist ∧ authrole ∉ pt.whitelist ∧ sessionid ∉ pt.whitelist
        ∧ authid ≠ AuthVal.avnone ∧ authrole ≠ AuthVal.avnone
        ∧ sessionid ≠ AuthVal.avnone →
        Roles.authorize roles role authid authrole sessionid false
          = Except.error (PyErr.wampError "wamp.error.not_authorized")) := by
  have hbig : (pyIn authid pt.whitelist || pyIn authrole pt.whitelist
      || pyIn sessionid pt.whitelist
      || (authid.isNone && pt.defaultAllow) || (authrole.isNone && pt.defaultAllow)
      || (sessionid.isNone && pt.defaultAllow) || !pyIn authid pt.blacklist
      || !pyIn authrole pt.blacklist || !pyIn sessionid pt.blacklist) = true
      ↔ specAuthorizeGrants pt authid authrole sessionid := by
    simp only [specAuthorizeGrants, Bool.or_eq_true, Bool.and_eq_true,
      pyIn_iff_mem, pyIn_not_iff, AuthVal.isNone_iff]
    tauto
  have hmain : (Roles.authorize roles role authid authrole sessionid false = Except.ok true
        ↔ specAuthorizeGrants pt authid authrole sessionid)
      ∧ (¬ specAuthorizeGrants pt authid authrole sessionid →
        Roles.authorize roles role authid authrole sessionid false
          = Except.error (PyErr.wampError "wamp.error.not_authorized")) := by
    simp only [Roles.authorize, hrole]
    by_cases hc : specAuthorizeGrants pt authid authrole sessionid
    · rw [if_pos (hbig.mpr hc)]
      exact ⟨⟨fun _ => hc, fun _ => rfl⟩, fun hn => absurd hc hn⟩
    · rw [if_neg (fun ht => hc (hbig.mp ht))]
      refine ⟨⟨fun hcontra => ?_, fun hs => absurd hs hc⟩, fun _ => rfl⟩
      simp at hcontra
  refine ⟨hmain.1, hmain.2, fun hden => hmain.2 ?_⟩
  obtain ⟨b1, b2, b3, w1, w2, w3, n1, n2, n3⟩ := hden
  simp only [specAuthorizeGrants]
  push_neg
  exact ⟨⟨w1, w2, w3⟩, fun hu => absurd hu (by tauto), by tauto⟩

/-- C9 (witness): a fully blacklisted, non-whitelisted principal is denied
with `wamp.error.not_authorized`. -/
theorem c9_witness_blacklisted_denied :
    Roles.authorize
        [("publish", PermTable.mk [AuthVal.avstr "ban", AuthVal.avint 7] [] true)]
        "publish" (AuthVal.avstr "ban") (AuthVal.avstr "ban") (AuthVal.avint 7) false
      = Except.error (PyErr.wampError "wamp.error.not_authorized") :=
  (c9_authorize_grant_characterization
      [("publish", PermTable.mk [AuthVal.avstr "ban", AuthVal.avint 7] [] true)]
      "publish" (PermTable.mk [AuthVal.avstr "ban", AuthVal.avint 7] [] true)
      (AuthVal.avstr "ban") (AuthVal.avstr "ban") (AuthVal.avint 7) rfl).2.2
    (by refine ⟨?_, ?_, ?_, ?_, ?_, ?_, ?_, ?_, ?_⟩ <;> decide)

/-- C10 (counterexample).  The claim says a YIELD carrying a pending
request id causes the RESULT to be written to the recorded caller and, for
non-progressive yields, the entry to be removed.  At the table `{5 ↦
(caller 3, t=0, {})}` and the non-progressive YIELD `[70, 5, {}]` from an
arbitrary handler 4, the RESULT is written but the entry is still present
afterwards (the bare `options.progress` access raises `KeyError` before the
`pop`). -/
theorem c10_missing_progress_key_retains_entry :
    (yield_result [(5, ⟨3, 0, []⟩)] 4 ⟨5, [], [], []⟩).writes
        = [(3, WMsg.result 5 [] [] [])]
    ∧ (alookup (yield_result [(5, ⟨3, 0, []⟩)] 4 ⟨5, [], [], []⟩).pending 5).isSome
        = true := ⟨rfl, rfl⟩

/-- C10 (amended).  `Procedure.yield_result` correlates by request id
alone: for every entry of the single pending table, a YIELD with that
request id from any handler whatsoever — the yielding handler's identity is
never consulted — writes the RESULT to the recorded caller, and the entry
is removed when the YIELD's options carry an explicit falsy `progress`
value (a YIELD whose options lack the key raises `KeyError` after the
write and leaves the entry in place). -/
theorem c10_yield_correlates_by_request_id_alone
    (pending : List (Nat × PendingEntry)) (hnd : (pending.map Prod.fst).Nodup)
    (yielder : Nat) (msg : YieldMessage) (entry : PendingEntry)
    (hent : alookup pending msg.request_id = some entry) :
    (yield_result pending yielder msg).writes
        = [(entry.invoking_handler,
            WMsg.result msg.request_id msg.options msg.args msg.kwargs)]
    ∧ (∀ p, alookup msg.options "progress" = some p → p.truthy = false →
        alookup (yield_result pending yielder msg).pending msg.request_id
          = Option.none) := by
  constructor
  · unfold yield_result
    rw [hent]
    rcases hp : Options.attr msg.options "progress" with e | p
    · rfl
    · by_cases hpt : p.truthy <;> simp only [hpt, Bool.not_true, Bool.not_false]
      · rcases hrp : Options.attr entry.call_options "receive_progress" with e2 | rp
        · rfl
        · by_cases hrpt : rp.truthy <;>
            simp only [hrpt, Bool.not_true, Bool.not_false] <;> rfl
      · rfl
  · intro p hp hpt
    unfold yield_result
    rw [hent]
    have hattr : Options.attr msg.options "progress" = Except.ok p := by
      simp [Options.attr, hp]
    rw [hattr]
    simp only [hpt, Bool.not_false, if_pos]
    exact alookup_aerase_self pending msg.request_id hnd

/-- C10 (witness): the amended theorem at a concrete table and an
explicitly non-progressive YIELD — the entry is gone afterwards. -/
theorem c10_witness_concrete :
    alookup (yield_result [(5, PendingEntry.mk 3 0 [])] 4
        ⟨5, [("progress", PVal.pybool false)], [], []⟩).pending 5 = Option.none :=
  (c10_yield_correlates_by_request_id_alone [(5, PendingEntry.mk 3 0 [])] (by decide) 4
      ⟨5, [("progress", PVal.pybool false)], [], []⟩ (PendingEntry.mk 3 0 []) rfl).2
    (PVal.pybool false) rfl rfl

end Wampnado
